import Mathlib

/-!
Verification of the zero-downtime network migration subsystem against its
natural-language specification.  The definitions below are a shallow
embedding of the Go sources: `node/txapp/mempool.go` (mempool admission),
the node boot sequence (`restoreDB`), and — where the deciding code lives
outside the provided sources — models written from the specification text,
each marked `Modelled from the spec:` in its doc comment.
-/

namespace KwilSpec

/-- Migration status of the chain, the ordered enum from the spec
(`NoActiveMigration`, `ActivationPeriod`, `MigrationInProgress`,
`MigrationCompleted`, `GenesisMigration`). -/
inductive MigrationStatus where
  | noActiveMigration
  | activationPeriod
  | migrationInProgress
  | migrationCompleted
  | genesisMigration
deriving DecidableEq, Repr

/-- Modelled from the spec: the `MigrationStatus.Active` predicate of the
`core/types` package (not among the provided sources).  The spec defines
*active* as membership in the set containing `ActivationPeriod` and
`MigrationInProgress`. -/
def MigrationStatus.Active : MigrationStatus → Bool
  | .activationPeriod => true
  | .migrationInProgress => true
  | _ => false

/-- Transaction payload kinds used by the mempool admission check
(`types.PayloadType...` constants). -/
inductive PayloadType where
  | validatorJoin
  | validatorLeave
  | validatorApprove
  | validatorRemove
  | validatorVoteIDs
  | validatorVoteBodies
  | rawStatement
  | transfer
  | createResolution
  | approveResolution
  | execute
deriving DecidableEq, Repr

/-- Structured transaction payload.  The Go code carries payloads as bytes
and unmarshals them against the declared payload type; a mismatch between
`payloadType` and the `payload` constructor models an unmarshal failure. -/
inductive Payload where
  | createResolution (resType : String)
  | approveResolution (resolutionID : Nat)
  | transfer (amount : Int)
  | validatorVoteIDs (resolutionIDs : List Nat)
  | other
deriving DecidableEq, Repr

/-- Modelled from the spec: the vote-store resolution kind name
`start_migration` (`voting.StartMigrationEventType`, not among the
provided sources). -/
def StartMigrationEventType : String := "start_migration"

/-- Account state as tracked by the account store and the mempool:
`Nonce int64`, `Balance *big.Int`. -/
structure Account where
  nonce : Int
  balance : Int
deriving DecidableEq, Repr

/-- Body of a transaction (`types.Transaction.Body`): payload type,
payload, fee and `uint64` nonce. -/
structure TxBody where
  payloadType : PayloadType
  payload : Payload
  fee : Int
  nonce : Nat
deriving DecidableEq, Repr

/-- A transaction as seen by the mempool: body, sender identifier and
signature type. -/
structure Transaction where
  body : TxBody
  sender : String
  sigType : String
deriving DecidableEq, Repr

/-- Consensus network parameters read by the mempool
(`NetworkParameters.MigrationStatus`, `.DisabledGasCosts`,
`.MaxVotesPerTx`). -/
structure NetworkParameters where
  migrationStatus : MigrationStatus
  disabledGasCosts : Bool
  maxVotesPerTx : Int

/-- Read-only environment of one mempool admission call: chain parameters
and the external stores the Go code queries (vote store resolutions by id,
validator powers, the account store) plus the local node identity used by
the rebroadcast branch.  External store reads are modelled as pure
total functions. -/
structure MempoolEnv where
  params : NetworkParameters
  resolutions : List (Nat × String)
  authKeyType : String → Option String
  validatorPower : String → String → Int
  getAccount : String → Account
  nodeAuthType : String
  nodeCompactID : String

/-- The Go to-unsigned conversion `uint64(n)` of an `int64` value,
followed by no further truncation: the value modulo `2 ^ 64`. -/
def u64ofI64 (n : Int) : Nat := (n % (2 ^ 64 : Int)).toNat

/-- The Go conversion `int64(n)` of a `uint64` value: two-complement
reinterpretation. -/
def i64ofU64 (n : Nat) : Int :=
  if n < 2 ^ 63 then (n : Int) else (n : Int) - 2 ^ 64

/-- Errors returned by `mempool.applyTransaction`.  Constructors mirror
the distinct `return` sites of the Go function. -/
inductive MempoolError where
  | disallowedInMigration (kind : String)
  | unmarshalError
  | migrationProposalNotFound
  | approvingMigrationResolutionDisallowed
  | invalidKeyType
  | onlyValidatorsCanVote
  | tooManyVoteIDs (limit : Int)
  | voteBodiesNotAllowed
  | insufficientBalance
  | invalidNonce (got : Nat) (expected : Nat)
  | invalidAmount
deriving DecidableEq, Repr

/-- The per-kind error detail strings of the `inMigration` switch in
`mempool.applyTransaction`; `none` for kinds the switch does not block. -/
def migrationBlockedKindName : PayloadType → Option String
  | .validatorJoin => some "validator join"
  | .validatorLeave => some "validator leave"
  | .validatorApprove => some "validator approve"
  | .validatorRemove => some "validator remove"
  | .validatorVoteIDs => some "validator vote ids"
  | .validatorVoteBodies => some "validator vote bodies"
  | .rawStatement => some "raw statement"
  | .transfer => some "transfer"
  | _ => none

/-- Tracked mempool account state (`mempool.accounts`), an association
list keyed by the sender identifier. -/
abbrev MempoolAccounts := List (String × Account)

/-- `mempool.accountInfo`: return the tracked account if present,
otherwise fetch it from the account store and cache it. -/
def accountInfo (env : MempoolEnv) (st : MempoolAccounts) (key : String) :
    Account × MempoolAccounts :=
  match st.lookup key with
  | some a => (a, st)
  | none =>
    let a := env.getAccount key
    (a, (key, a) :: st)

/-- Replace the tracked entry for `key` (the Go code mutates the cached
`*types.Account` in place). -/
def setAccount (st : MempoolAccounts) (key : String) (a : Account) :
    MempoolAccounts :=
  st.map (fun p => if p.1 == key then (key, a) else p)

/-- The account checks of `mempool.applyTransaction` (unfunded-account
check, nonce check, transfer amount checks, pending balance and nonce
update), entered after all payload-policy checks passed. -/
def accountChecks (env : MempoolEnv) (st : MempoolAccounts) (tx : Transaction) :
    Except MempoolError Unit × MempoolAccounts :=
  let fetched := accountInfo env st tx.sender
  let acct := fetched.1
  let st1 := fetched.2
  if !env.params.disabledGasCosts && acct.nonce == 0 && acct.balance == 0 then
    (.error .insufficientBalance, st1.filter (fun p => p.1 != tx.sender))
  else if tx.body.nonce != (u64ofI64 acct.nonce + 1) % 2 ^ 64 then
    if tx.body.payloadType == .validatorVoteIDs
        && tx.sigType == env.nodeAuthType
        && tx.sender == env.nodeCompactID then
      match tx.body.payload with
      | .validatorVoteIDs _ =>
        (.error (.invalidNonce tx.body.nonce ((u64ofI64 acct.nonce + 1) % 2 ^ 64)), st1)
      | _ => (.error .unmarshalError, st1)
    else
      (.error (.invalidNonce tx.body.nonce ((u64ofI64 acct.nonce + 1) % 2 ^ 64)), st1)
  else
    match tx.body.payloadType, tx.body.payload with
    | .transfer, .transfer amt =>
      if amt < 0 then (.error .invalidAmount, st1)
      else if acct.balance < amt then (.error .insufficientBalance, st1)
      else
        let spend := tx.body.fee + amt
        let newBalance := if acct.balance < spend then 0 else acct.balance - spend
        (.ok (), setAccount st1 tx.sender
          { nonce := i64ofU64 tx.body.nonce, balance := newBalance })
    | .transfer, _ => (.error .unmarshalError, st1)
    | _, _ =>
      let spend := tx.body.fee
      let newBalance := if acct.balance < spend then 0 else acct.balance - spend
      (.ok (), setAccount st1 tx.sender
        { nonce := i64ofU64 tx.body.nonce, balance := newBalance })

/-- The unconditional `ValidatorVoteBodies` rejection of
`mempool.applyTransaction` (vote bodies are only valid during block
proposal), then the account checks. -/
def checkVoteBodies (env : MempoolEnv) (st : MempoolAccounts) (tx : Transaction) :
    Except MempoolError Unit × MempoolAccounts :=
  if tx.body.payloadType == .validatorVoteBodies then
    (.error .voteBodiesNotAllowed, st)
  else accountChecks env st tx

/-- The `ValidatorVoteIDs` checks of `mempool.applyTransaction` (sender
must be a validator; vote-id count limit), then the later stages. -/
def checkVoteIDs (env : MempoolEnv) (st : MempoolAccounts) (tx : Transaction) :
    Except MempoolError Unit × MempoolAccounts :=
  if tx.body.payloadType == .validatorVoteIDs then
    match env.authKeyType tx.sigType with
    | none => (.error .invalidKeyType, st)
    | some keyType =>
      if env.validatorPower tx.sender keyType == 0 then
        (.error .onlyValidatorsCanVote, st)
      else
        match tx.body.payload with
        | .validatorVoteIDs ids =>
          if env.params.maxVotesPerTx < (ids.length : Int) then
            (.error (.tooManyVoteIDs env.params.maxVotesPerTx), st)
          else checkVoteBodies env st tx
        | _ => (.error .unmarshalError, st)
  else checkVoteBodies env st tx

/-- The `ApproveResolution` migration check of `mempool.applyTransaction`:
the referenced resolution must exist, and approving a `StartMigration`
resolution is blocked while a migration is active or during genesis
migration; then the later stages. -/
def checkApproveResolution (env : MempoolEnv) (st : MempoolAccounts) (tx : Transaction) :
    Except MempoolError Unit × MempoolAccounts :=
  if tx.body.payloadType == .approveResolution then
    match tx.body.payload with
    | .approveResolution rid =>
      match env.resolutions.lookup rid with
      | none => (.error .migrationProposalNotFound, st)
      | some resType =>
        if (env.params.migrationStatus.Active
            || env.params.migrationStatus == .genesisMigration)
            && resType == StartMigrationEventType then
          (.error .approvingMigrationResolutionDisallowed, st)
        else checkVoteIDs env st tx
    | _ => (.error .unmarshalError, st)
  else checkVoteIDs env st tx

/-- The `CreateResolution` migration check of `mempool.applyTransaction`:
creating a `StartMigration` resolution is blocked while a migration is
active or during genesis migration; then the later stages. -/
def checkCreateResolution (env : MempoolEnv) (st : MempoolAccounts) (tx : Transaction) :
    Except MempoolError Unit × MempoolAccounts :=
  if tx.body.payloadType == .createResolution then
    match tx.body.payload with
    | .createResolution resType =>
      if (env.params.migrationStatus.Active
          || env.params.migrationStatus == .genesisMigration)
          && resType == StartMigrationEventType then
        (.error (.disallowedInMigration "migration resolutions"), st)
      else checkApproveResolution env st tx
    | _ => (.error .unmarshalError, st)
  else checkApproveResolution env st tx

/-- `mempool.applyTransaction`: the full mempool admission check.  Its
first stage is the `inMigration` payload-kind switch; the remaining
stages follow in source order. -/
def applyTransaction (env : MempoolEnv) (st : MempoolAccounts) (tx : Transaction) :
    Except MempoolError Unit × MempoolAccounts :=
  let status := env.params.migrationStatus
  let inMigration := status == .migrationInProgress || status == .migrationCompleted
  match inMigration, migrationBlockedKindName tx.body.payloadType with
  | true, some k => (.error (.disallowedInMigration k), st)
  | _, _ => checkCreateResolution env st tx

/-- The account the admission check reads for a sender: the tracked
pending account if there is one, otherwise the stored account. -/
def lookupAcct (env : MempoolEnv) (st : MempoolAccounts) (key : String) : Account :=
  (accountInfo env st key).1

/-! Node boot sequence: restoring the database from the genesis snapshot
(`restoreDB` in the node build code). -/

/-- Outcome of the boot-time `restoreDB` decision: the database was
restored from the genesis snapshot, boot proceeded without a genesis
restore, or boot failed fatally (`failBuild`) with the given message. -/
inductive BootOutcome where
  | restoredFromGenesis
  | noGenesisRestore
  | fatal (msg : String)
deriving DecidableEq, Repr

/-- The inputs `restoreDB` consults: whether the local database is already
initialized, the statesync configuration and its result, the genesis
config `StateHash`, the configured snapshot path `GenesisState`, and the
(decompressed) snapshot file content when the file exists. -/
structure BootEnv where
  dbInitialized : Bool
  statesyncEnable : Bool
  statesyncErr : Bool
  statesyncSuccess : Bool
  stateHash : List Nat
  genesisState : String
  fileExists : Bool
  gzipValid : Bool
  fileContent : List Nat
deriving DecidableEq, Repr

/-- Modelled from the spec: `node.RestoreDB` (not among the provided
sources) restores the database from the snapshot content iff its SHA-256
equals the expected genesis `StateHash`, and errors on a mismatch leaving
the database untouched.  The hash function is a parameter of the model. -/
def RestoreDB (sha256 : List Nat → List Nat) (content expected : List Nat) :
    Except String Unit :=
  if sha256 content = expected then .ok () else .error "snapshot hash mismatch"

/-- `restoreDB` of the node build code: skip when the database is already
initialized; let statesync restore when enabled and successful; skip when
the genesis `StateHash` is empty; fail fatally when `StateHash` is set but
no snapshot file is configured, when the file cannot be opened, or when
the snapshot hash does not match; otherwise restore from the genesis
snapshot. -/
def restoreDB (sha256 : List Nat → List Nat) (d : BootEnv) : BootOutcome :=
  if d.dbInitialized then .noGenesisRestore
  else if d.statesyncEnable && d.statesyncErr then .fatal "failed to do statesync"
  else if d.statesyncEnable && d.statesyncSuccess then .noGenesisRestore
  else if d.stateHash.length == 0 then .noGenesisRestore
  else if d.genesisState == "" then .fatal "snapshot file not provided"
  else if !d.fileExists then .fatal "failed to open genesis state file"
  else if d.genesisState.endsWith ".gz" && !d.gzipValid then
    .fatal "failed to create gzip reader"
  else
    match RestoreDB sha256 d.fileContent d.stateHash with
    | .ok _ => .restoredFromGenesis
    | .error _ => .fatal "failed to restore DB from snapshot"

/-! Vote-store resolution approval.  The threshold logic and the approve
transaction execution live in the vote store and transaction router,
outside the provided sources, and are modelled from the spec below. -/

/-- A validator: public key identifier and voting power. -/
structure Validator where
  key : String
  power : Int
deriving DecidableEq, Repr

/-- A pending vote-store resolution: identifier, resolution type and the
validators that approved so far. -/
structure PendingResolution where
  id : Nat
  resType : String
  approvers : List String
deriving DecidableEq, Repr

/-- Total voting power of a validator set. -/
def totalPower (vals : List Validator) : Int :=
  (vals.map Validator.power).sum

/-- Voting power of a key in a validator set; zero for non-validators. -/
def powerOf (vals : List Validator) (key : String) : Int :=
  match vals.find? (fun v => v.key == key) with
  | some v => v.power
  | none => 0

/-- Approval power a resolution has gathered under a validator set. -/
def approvedPower (vals : List Validator) (approvers : List String) : Int :=
  (approvers.map (powerOf vals)).sum

/-- Modelled from the spec: the confirmation threshold of a voted
resolution is two thirds of the total validator power, strict, with ties
rounding up to the next vote; that is, the approvals must strictly exceed
two thirds of the total power. -/
def thresholdMet (approved total : Int) : Bool :=
  decide (2 * total < 3 * approved)

/-- Modelled from the spec: executing an approval transaction against the
vote store (the execution route is not among the provided sources).  An
approval from a key with no validator power fails and leaves the pending
resolutions unchanged; otherwise the voter is added to the approvals of
the referenced resolution, and the resolution passes — is removed and
takes effect — exactly when the gathered power meets the confirmation
threshold. -/
def approveResolutionTx (vals : List Validator) (pending : List PendingResolution)
    (rid : Nat) (voter : String) :
    Except String Unit × List PendingResolution :=
  if powerOf vals voter == 0 then
    (.error "approval from non-validator: transaction failed", pending)
  else
    match pending.find? (fun r => r.id == rid) with
    | none => (.error "resolution not found", pending)
    | some r =>
      let r2 : PendingResolution :=
        { r with approvers :=
            if r.approvers.contains voter then r.approvers else voter :: r.approvers }
      if thresholdMet (approvedPower vals r2.approvers) (totalPower vals) then
        (.ok (), pending.filter (fun q => q.id != rid))
      else
        (.ok (), pending.map (fun q => if q.id == rid then r2 else q))

/-! Validator join-request status query. -/

/-- A pending validator join request: candidate key, expiry, the board of
current validators and their votes. -/
structure JoinRequest where
  candidate : String
  expiresAt : Int
  board : List String
  approved : List Bool
deriving DecidableEq, Repr

/-- The error message returned when no pending join request exists for the
queried key, as asserted verbatim by the integration test. -/
def joinRequestErrMsg : String :=
  "No active join request for that validator. Have they already been approved?"

/-- Modelled from the spec: the validator join-status query (the voting
store query is not among the provided sources) returns the pending join
request of the key, and fails with the no-active-join-request error when
there is none. -/
def validatorJoinStatus (reqs : List JoinRequest) (key : String) :
    Except String JoinRequest :=
  match reqs.find? (fun r => r.candidate == key) with
  | some r => .ok r
  | none => .error joinRequestErrMsg

/-- Modelled from the spec: join requests whose expiry has elapsed are
removed from the pending set. -/
def expireJoinRequests (reqs : List JoinRequest) (now : Int) : List JoinRequest :=
  reqs.filter (fun r => decide (now < r.expiresAt))

/-! Theorems.  Each claim of the specification is settled by one theorem
below, preceded by helper lemmas shared between them. -/

/-- Claim C1: in `MigrationInProgress` or `MigrationCompleted` status, a
transaction whose payload kind is `ValidatorJoin`, `ValidatorLeave`,
`ValidatorApprove`, `ValidatorRemove`, `ValidatorVoteIDs`,
`ValidatorVoteBodies`, `RawStatement` or `Transfer` is rejected by the
mempool admission check with a disallowed-in-migration error and is never
accepted. -/
theorem mempool_blocks_kinds_in_migration (env : MempoolEnv) (st : MempoolAccounts)
    (tx : Transaction)
    (hst : env.params.migrationStatus = MigrationStatus.migrationInProgress ∨
           env.params.migrationStatus = MigrationStatus.migrationCompleted)
    (hk : tx.body.payloadType ∈
      [PayloadType.validatorJoin, PayloadType.validatorLeave, PayloadType.validatorApprove,
       PayloadType.validatorRemove, PayloadType.validatorVoteIDs,
       PayloadType.validatorVoteBodies, PayloadType.rawStatement, PayloadType.transfer]) :
    (∃ k, applyTransaction env st tx = (.error (MempoolError.disallowedInMigration k), st)) ∧
    (applyTransaction env st tx).1 ≠ .ok () := by
  have hin : (env.params.migrationStatus == MigrationStatus.migrationInProgress ||
      env.params.migrationStatus == MigrationStatus.migrationCompleted) = true := by
    rcases hst with h | h <;> simp [h]
  obtain ⟨k, hksome⟩ : ∃ k, migrationBlockedKindName tx.body.payloadType = some k := by
    simp only [List.mem_cons, List.not_mem_nil, or_false] at hk
    rcases hk with h | h | h | h | h | h | h | h <;>
      (rw [h]; exact ⟨_, rfl⟩)
  constructor
  · exact ⟨k, by simp [applyTransaction, hin, hksome]⟩
  · simp [applyTransaction, hin, hksome]

/-- Witness for claim C1 at a concrete input: a `ValidatorJoin`
transaction in `MigrationInProgress` status is rejected. -/
theorem mempool_blocks_kinds_in_migration_witness :
    (∃ k, applyTransaction
      { params := { migrationStatus := .migrationInProgress, disabledGasCosts := true,
                    maxVotesPerTx := 100 },
        resolutions := [], authKeyType := fun _ => none,
        validatorPower := fun _ _ => 0, getAccount := fun _ => { nonce := 0, balance := 0 },
        nodeAuthType := "ed25519", nodeCompactID := "node0" } []
      { body := { payloadType := .validatorJoin, payload := .other, fee := 0, nonce := 1 },
        sender := "alice", sigType := "ed25519" } =
        (.error (MempoolError.disallowedInMigration k), [])) ∧
    (applyTransaction
      { params := { migrationStatus := .migrationInProgress, disabledGasCosts := true,
                    maxVotesPerTx := 100 },
        resolutions := [], authKeyType := fun _ => none,
        validatorPower := fun _ _ => 0, getAccount := fun _ => { nonce := 0, balance := 0 },
        nodeAuthType := "ed25519", nodeCompactID := "node0" } []
      { body := { payloadType := .validatorJoin, payload := .other, fee := 0, nonce := 1 },
        sender := "alice", sigType := "ed25519" }).1 ≠ .ok () :=
  mempool_blocks_kinds_in_migration _ _ _ (Or.inl rfl) (by simp)

/-- Claim C4: a `ValidatorVoteBodies` transaction is rejected by the
mempool in every migration status — with the disallowed-in-migration
error while in migration and with the vote-bodies rejection otherwise —
and never enters the mempool; the tracked state is unchanged. -/
theorem voteBodies_never_enters_mempool (env : MempoolEnv) (st : MempoolAccounts)
    (tx : Transaction)
    (h : tx.body.payloadType = PayloadType.validatorVoteBodies) :
    ((applyTransaction env st tx).1 =
        .error (MempoolError.disallowedInMigration "validator vote bodies") ∨
     (applyTransaction env st tx).1 = .error MempoolError.voteBodiesNotAllowed) ∧
    (applyTransaction env st tx).1 ≠ .ok () ∧
    (applyTransaction env st tx).2 = st := by
  cases hin : (env.params.migrationStatus == MigrationStatus.migrationInProgress ||
      env.params.migrationStatus == MigrationStatus.migrationCompleted) with
  | true =>
    refine ⟨Or.inl ?_, ?_, ?_⟩ <;>
      simp [applyTransaction, hin, h, migrationBlockedKindName]
  | false =>
    refine ⟨Or.inr ?_, ?_, ?_⟩ <;>
      simp [applyTransaction, checkCreateResolution, checkApproveResolution,
        checkVoteIDs, checkVoteBodies, hin, h, migrationBlockedKindName]

/-- Witness for claim C4 at a concrete input: a `ValidatorVoteBodies`
transaction in `NoActiveMigration` status is rejected with the state
unchanged. -/
theorem voteBodies_never_enters_mempool_witness :
    ((applyTransaction
      { params := { migrationStatus := .noActiveMigration, disabledGasCosts := true,
                    maxVotesPerTx := 100 },
        resolutions := [], authKeyType := fun _ => none,
        validatorPower := fun _ _ => 0, getAccount := fun _ => { nonce := 0, balance := 0 },
        nodeAuthType := "ed25519", nodeCompactID := "node0" } []
      { body := { payloadType := .validatorVoteBodies, payload := .other, fee := 0, nonce := 1 },
        sender := "bob", sigType := "ed25519" }).1 =
        .error (MempoolError.disallowedInMigration "validator vote bodies") ∨
     (applyTransaction
      { params := { migrationStatus := .noActiveMigration, disabledGasCosts := true,
                    maxVotesPerTx := 100 },
        resolutions := [], authKeyType := fun _ => none,
        validatorPower := fun _ _ => 0, getAccount := fun _ => { nonce := 0, balance := 0 },
        nodeAuthType := "ed25519", nodeCompactID := "node0" } []
      { body := { payloadType := .validatorVoteBodies, payload := .other, fee := 0, nonce := 1 },
        sender := "bob", sigType := "ed25519" }).1 =
        .error MempoolError.voteBodiesNotAllowed) ∧
    (applyTransaction
      { params := { migrationStatus := .noActiveMigration, disabledGasCosts := true,
                    maxVotesPerTx := 100 },
        resolutions := [], authKeyType := fun _ => none,
        validatorPower := fun _ _ => 0, getAccount := fun _ => { nonce := 0, balance := 0 },
        nodeAuthType := "ed25519", nodeCompactID := "node0" } []
      { body := { payloadType := .validatorVoteBodies, payload := .other, fee := 0, nonce := 1 },
        sender := "bob", sigType := "ed25519" }).1 ≠ .ok () ∧
    (applyTransaction
      { params := { migrationStatus := .noActiveMigration, disabledGasCosts := true,
                    maxVotesPerTx := 100 },
        resolutions := [], authKeyType := fun _ => none,
        validatorPower := fun _ _ => 0, getAccount := fun _ => { nonce := 0, balance := 0 },
        nodeAuthType := "ed25519", nodeCompactID := "node0" } []
      { body := { payloadType := .validatorVoteBodies, payload := .other, fee := 0, nonce := 1 },
        sender := "bob", sigType := "ed25519" }).2 = [] :=
  voteBodies_never_enters_mempool _ _ _ rfl

/-- Claim C8: an `ApproveResolution` transaction whose referenced
resolution id is unknown to the vote store is rejected with the
migration-proposal-not-found error, in every migration status and
regardless of the resolution type. -/
theorem approve_unknown_resolution_rejected (env : MempoolEnv) (st : MempoolAccounts)
    (tx : Transaction) (rid : Nat)
    (hpt : tx.body.payloadType = PayloadType.approveResolution)
    (hp : tx.body.payload = Payload.approveResolution rid)
    (hnone : env.resolutions.lookup rid = none) :
    applyTransaction env st tx = (.error MempoolError.migrationProposalNotFound, st) := by
  cases hin : (env.params.migrationStatus == MigrationStatus.migrationInProgress ||
      env.params.migrationStatus == MigrationStatus.migrationCompleted) <;>
    simp [applyTransaction, checkCreateResolution, checkApproveResolution,
      hin, hpt, hp, hnone, migrationBlockedKindName]

/-- Environment of the counterexample to claim C2: chain status
`MigrationCompleted`, gas costs disabled, an empty vote store. -/
def envC2cex : MempoolEnv :=
  { params := { migrationStatus := .migrationCompleted, disabledGasCosts := true,
                maxVotesPerTx := 100 },
    resolutions := [], authKeyType := fun _ => none,
    validatorPower := fun _ _ => 0, getAccount := fun _ => { nonce := 0, balance := 0 },
    nodeAuthType := "ed25519", nodeCompactID := "node0" }

/-- Transaction of the counterexample to claim C2: a well-formed
`CreateResolution` transaction carrying a `StartMigration` resolution,
with the correct next nonce. -/
def txC2cex : Transaction :=
  { body := { payloadType := .createResolution,
              payload := .createResolution StartMigrationEventType,
              fee := 0, nonce := 1 },
    sender := "alice", sigType := "ed25519" }

/-- Counterexample to claim C2: in `MigrationCompleted` status a
transaction creating a `StartMigration` resolution is accepted by the
mempool admission check — it is not rejected, contrary to the claim that
it is blocked in every in-migration phase. -/
theorem createResolution_accepted_in_migrationCompleted :
    (applyTransaction envC2cex [] txC2cex).1 = .ok () ∧
    envC2cex.params.migrationStatus = MigrationStatus.migrationCompleted ∧
    txC2cex.body.payloadType = PayloadType.createResolution ∧
    txC2cex.body.payload = Payload.createResolution StartMigrationEventType := by
  refine ⟨?_, rfl, rfl, rfl⟩
  rfl

/-- Claim C2 (amended): a transaction creating a `StartMigration`
resolution, and a transaction approving an existing `StartMigration`
resolution, are rejected by the mempool whenever the migration status is
`ActivationPeriod`, `MigrationInProgress` or `GenesisMigration` (but not
in `MigrationCompleted`). -/
theorem migration_resolutions_blocked_when_active_or_genesis
    (env : MempoolEnv) (st : MempoolAccounts) (tx : Transaction) (rid : Nat)
    (hst : env.params.migrationStatus = MigrationStatus.activationPeriod ∨
           env.params.migrationStatus = MigrationStatus.migrationInProgress ∨
           env.params.migrationStatus = MigrationStatus.genesisMigration) :
    (tx.body.payloadType = PayloadType.createResolution →
     tx.body.payload = Payload.createResolution StartMigrationEventType →
     applyTransaction env st tx =
       (.error (MempoolError.disallowedInMigration "migration resolutions"), st)) ∧
    (tx.body.payloadType = PayloadType.approveResolution →
     tx.body.payload = Payload.approveResolution rid →
     env.resolutions.lookup rid = some StartMigrationEventType →
     applyTransaction env st tx =
       (.error MempoolError.approvingMigrationResolutionDisallowed, st)) := by
  constructor
  · intro hpt hp
    rcases hst with h | h | h <;>
      simp [applyTransaction, checkCreateResolution, h, hpt, hp,
        MigrationStatus.Active, migrationBlockedKindName, StartMigrationEventType]
  · intro hpt hp hres
    rcases hst with h | h | h <;>
      simp [applyTransaction, checkCreateResolution, checkApproveResolution,
        h, hpt, hp, hres, MigrationStatus.Active, migrationBlockedKindName,
        StartMigrationEventType]

/-- Witness for the amended claim C2 at a concrete input: a
`CreateResolution(StartMigration)` transaction in `ActivationPeriod`
status is rejected. -/
theorem migration_resolutions_blocked_when_active_or_genesis_witness :
    applyTransaction
      { params := { migrationStatus := .activationPeriod, disabledGasCosts := true,
                    maxVotesPerTx := 100 },
        resolutions := [], authKeyType := fun _ => none,
        validatorPower := fun _ _ => 0, getAccount := fun _ => { nonce := 0, balance := 0 },
        nodeAuthType := "ed25519", nodeCompactID := "node0" } []
      { body := { payloadType := .createResolution,
                  payload := .createResolution StartMigrationEventType,
                  fee := 0, nonce := 1 },
        sender := "dave", sigType := "ed25519" } =
      (.error (MempoolError.disallowedInMigration "migration resolutions"), []) :=
  (migration_resolutions_blocked_when_active_or_genesis _ _ _ 0 (Or.inl rfl)).1 rfl rfl

/-- Witness for claim C8 at a concrete input: approving resolution id 9
when the vote store holds no resolutions is rejected with the
migration-proposal-not-found error. -/
theorem approve_unknown_resolution_rejected_witness :
    applyTransaction
      { params := { migrationStatus := .genesisMigration, disabledGasCosts := true,
                    maxVotesPerTx := 100 },
        resolutions := [], authKeyType := fun _ => none,
        validatorPower := fun _ _ => 0, getAccount := fun _ => { nonce := 0, balance := 0 },
        nodeAuthType := "ed25519", nodeCompactID := "node0" } []
      { body := { payloadType := .approveResolution, payload := .approveResolution 9,
                  fee := 0, nonce := 1 },
        sender := "carol", sigType := "ed25519" } =
      (.error MempoolError.migrationProposalNotFound, []) :=
  approve_unknown_resolution_rejected _ _ _ 9 rfl rfl rfl

/-- Boot environment of the counterexample to claim C3: uninitialized
database, statesync enabled and successful, a non-empty genesis
`StateHash`, and a configured snapshot file whose hash matches. -/
def bootC3cex : BootEnv :=
  { dbInitialized := false, statesyncEnable := true, statesyncErr := false,
    statesyncSuccess := true, stateHash := [1], genesisState := "genesis-state.sql",
    fileExists := true, gzipValid := true, fileContent := [7] }

/-- Counterexample to claim C3: with the database uninitialized, the
genesis `StateHash` non-empty and the snapshot hash matching, boot does
NOT restore from the genesis snapshot when statesync is enabled and
succeeds — refuting the claimed if-and-only-if. -/
theorem restoreDB_skipped_despite_matching_hash :
    restoreDB (fun _ => [1]) bootC3cex = BootOutcome.noGenesisRestore ∧
    BootOutcome.noGenesisRestore ≠ BootOutcome.restoredFromGenesis ∧
    bootC3cex.dbInitialized = false ∧
    bootC3cex.stateHash ≠ [] ∧
    (fun _ : List Nat => [1]) bootC3cex.fileContent = bootC3cex.stateHash := by
  refine ⟨rfl, by decide, rfl, by decide, rfl⟩

/-- Claim C3 (amended): boot restores the database from the genesis
snapshot iff the local database is uninitialized, statesync did not
restore it (statesync disabled, or neither errored nor succeeded), the
genesis `StateHash` is non-empty, a snapshot file is configured, exists
and is readable, and its hash matches `StateHash`; with `StateHash` set
but no snapshot path configured boot fails fatally with the
snapshot-file-not-provided message; with a mismatching hash boot fails
fatally and the database is not restored. -/
theorem restoreDB_characterization (sha : List Nat → List Nat) (d : BootEnv) :
    (restoreDB sha d = BootOutcome.restoredFromGenesis ↔
      d.dbInitialized = false ∧
      (d.statesyncEnable = false ∨ (d.statesyncErr = false ∧ d.statesyncSuccess = false)) ∧
      d.stateHash ≠ [] ∧ d.genesisState ≠ "" ∧ d.fileExists = true ∧
      (d.genesisState.endsWith ".gz" = false ∨ d.gzipValid = true) ∧
      sha d.fileContent = d.stateHash) ∧
    (d.dbInitialized = false →
     (d.statesyncEnable = false ∨ (d.statesyncErr = false ∧ d.statesyncSuccess = false)) →
     d.stateHash ≠ [] → d.genesisState = "" →
     restoreDB sha d = BootOutcome.fatal "snapshot file not provided") ∧
    (d.dbInitialized = false →
     (d.statesyncEnable = false ∨ (d.statesyncErr = false ∧ d.statesyncSuccess = false)) →
     d.stateHash ≠ [] → d.genesisState ≠ "" → d.fileExists = true →
     (d.genesisState.endsWith ".gz" = false ∨ d.gzipValid = true) →
     sha d.fileContent ≠ d.stateHash →
     restoreDB sha d = BootOutcome.fatal "failed to restore DB from snapshot" ∧
     restoreDB sha d ≠ BootOutcome.restoredFromGenesis) := by
  unfold restoreDB RestoreDB
  refine ⟨?_, ?_, ?_⟩
  · split_ifs with h1 h2 h3 h4 h5 h6 h7 <;> simp_all
    exact ⟨by cases hse : d.statesyncEnable <;> simp_all,
           by cases hgz : d.genesisState.endsWith ".gz" <;> simp_all⟩
  · intro hdb hss hsh hgs
    split_ifs with h1 h2 h3 h4 <;> simp_all
  · intro hdb hss hsh hgs hfe hgz hmm
    split_ifs with h1 h2 h3 h4 h5 h6 h7 <;> simp_all

/-- Boot environment of the witness to claim C3: uninitialized database,
statesync disabled, a configured snapshot file whose hash will not match
the genesis `StateHash`. -/
def bootC3wit : BootEnv :=
  { dbInitialized := false, statesyncEnable := false, statesyncErr := false,
    statesyncSuccess := false, stateHash := [2], genesisState := "genesis-state.sql",
    fileExists := true, gzipValid := true, fileContent := [7] }

/-- Witness for the amended claim C3 at a concrete input: a mismatching
snapshot hash makes boot fail fatally without restoring. -/
theorem restoreDB_characterization_witness :
    restoreDB (fun _ => [9]) bootC3wit =
      BootOutcome.fatal "failed to restore DB from snapshot" ∧
    restoreDB (fun _ => [9]) bootC3wit ≠ BootOutcome.restoredFromGenesis :=
  (restoreDB_characterization (fun _ => [9]) bootC3wit).2.2 rfl (Or.inl rfl)
    (by decide) (by decide) rfl (Or.inr rfl) (by decide)

set_option maxHeartbeats 1600000 in
/-- Every stage of the mempool admission check before the account checks
either rejects with the original tracked state unchanged — with an error
that is never the invalid-nonce error — or hands over to the account
checks unchanged. -/
theorem applyTransaction_stage_chain (env : MempoolEnv) (st : MempoolAccounts)
    (tx : Transaction) :
    (∃ e, applyTransaction env st tx = (.error e, st) ∧
      ∀ g ex, e ≠ MempoolError.invalidNonce g ex) ∨
    applyTransaction env st tx = accountChecks env st tx := by
  simp only [applyTransaction, checkCreateResolution, checkApproveResolution,
    checkVoteIDs, checkVoteBodies]
  repeat' split
  all_goals first
    | (left; exact ⟨_, rfl, by intro g ex; simp⟩)
    | (right; rfl)

/-- The cached state produced by `accountInfo` holds the returned account
under the queried key. -/
theorem accountInfo_lookup (env : MempoolEnv) (st : MempoolAccounts) (key : String) :
    ((accountInfo env st key).2).lookup key = some (accountInfo env st key).1 := by
  unfold accountInfo
  cases h : st.lookup key with
  | some a => simp [h]
  | none => simp [h, List.lookup]

/-- Reading an account right after `accountInfo` cached it yields the
cached account. -/
theorem lookupAcct_after (env : MempoolEnv) (st : MempoolAccounts) (key : String) :
    lookupAcct env (accountInfo env st key).2 key = (accountInfo env st key).1 := by
  unfold lookupAcct accountInfo
  cases h : st.lookup key with
  | some a => simp [h]
  | none => simp [h, List.lookup]

/-- An accepted transaction passed the nonce equality check: acceptance
by the account checks forces the transaction nonce to be the tracked
pending nonce plus one. -/
theorem accountChecks_ok_nonce (env : MempoolEnv) (st : MempoolAccounts)
    (tx : Transaction) :
    (accountChecks env st tx).1 = .ok () →
    tx.body.nonce = (u64ofI64 (lookupAcct env st tx.sender).nonce + 1) % 2 ^ 64 := by
  unfold lookupAcct
  simp only [accountChecks]
  repeat' split
  all_goals intro hok
  all_goals first | (exfalso; simp at hok; done) | simp_all

/-- An invalid-nonce rejection by the account checks leaves the tracked
state as the post-fetch cache. -/
theorem accountChecks_invalidNonce_state (env : MempoolEnv) (st : MempoolAccounts)
    (tx : Transaction) (g e : Nat) :
    (accountChecks env st tx).1 = .error (MempoolError.invalidNonce g e) →
    (accountChecks env st tx).2 = (accountInfo env st tx.sender).2 := by
  simp only [accountChecks]
  repeat' split
  all_goals intro hcon
  all_goals first | rfl | (simp at hcon)

/-- Looking up a key after `setAccount` yields the written account when
the key was present, and nothing otherwise. -/
theorem lookup_setAccount (st : MempoolAccounts) (key : String) (a : Account) :
    (setAccount st key a).lookup key = (st.lookup key).map fun _ => a := by
  induction st with
  | nil => rfl
  | cons p rest ih =>
    simp only [setAccount, List.map_cons]
    split <;> rename_i hb
    · have h : p.1 = key := by simpa using hb
      simp [List.lookup, h]
    · have hne : ¬ p.1 = key := by simpa using hb
      have h2 : (key == p.1) = false := by
        simp only [beq_eq_false_iff_ne]
        exact fun hc => hne hc.symm
      simp only [setAccount] at ih
      simp [List.lookup, h2]
      simpa using ih

/-- Reading a key after writing it with `setAccount` into a state that
tracked it yields the written account. -/
theorem lookupAcct_set_of_mem (env : MempoolEnv) (st2 : MempoolAccounts) (key : String)
    (a b : Account) (h : st2.lookup key = some b) :
    lookupAcct env (setAccount st2 key a) key = a := by
  unfold lookupAcct accountInfo
  simp [lookup_setAccount, h]

/-- Claim C9: the mempool accepts a transaction only if its nonce equals
the tracked pending nonce of the sender plus one (stated both modulo the
64-bit conversion the code performs and, for in-range nonces, as the
plain successor); any other nonce is never accepted, an invalid-nonce
rejection leaves the tracked pending nonce and balance unchanged, and a
transaction that passes all earlier checks with a wrong nonce is rejected
precisely with the invalid-nonce error. -/
theorem mempool_nonce_admission :
    (∀ env st tx, (applyTransaction env st tx).1 = Except.ok () →
       tx.body.nonce = (u64ofI64 (lookupAcct env st tx.sender).nonce + 1) % 2 ^ 64) ∧
    (∀ env st tx, 0 ≤ (lookupAcct env st tx.sender).nonce →
       (lookupAcct env st tx.sender).nonce + 1 < 2 ^ 63 →
       (applyTransaction env st tx).1 = Except.ok () →
       (tx.body.nonce : Int) = (lookupAcct env st tx.sender).nonce + 1) ∧
    (∀ env st tx,
       tx.body.nonce ≠ (u64ofI64 (lookupAcct env st tx.sender).nonce + 1) % 2 ^ 64 →
       (applyTransaction env st tx).1 ≠ Except.ok ()) ∧
    (∀ env st tx g e,
       (applyTransaction env st tx).1 = Except.error (MempoolError.invalidNonce g e) →
       (applyTransaction env st tx).2 = (accountInfo env st tx.sender).2 ∧
       lookupAcct env (applyTransaction env st tx).2 tx.sender =
         lookupAcct env st tx.sender) ∧
    (∀ env st tx,
       env.params.migrationStatus = MigrationStatus.noActiveMigration →
       env.params.disabledGasCosts = true →
       tx.body.payloadType = PayloadType.transfer →
       tx.body.nonce ≠ (u64ofI64 (lookupAcct env st tx.sender).nonce + 1) % 2 ^ 64 →
       applyTransaction env st tx =
         (Except.error (MempoolError.invalidNonce tx.body.nonce
             ((u64ofI64 (lookupAcct env st tx.sender).nonce + 1) % 2 ^ 64)),
          (accountInfo env st tx.sender).2)) := by
  have hA : ∀ env st tx, (applyTransaction env st tx).1 = Except.ok () →
      tx.body.nonce = (u64ofI64 (lookupAcct env st tx.sender).nonce + 1) % 2 ^ 64 := by
    intro env st tx hok
    rcases applyTransaction_stage_chain env st tx with ⟨e, heq, _⟩ | heq
    · rw [heq] at hok; simp at hok
    · exact accountChecks_ok_nonce env st tx (by rw [← heq]; exact hok)
  refine ⟨hA, ?_, ?_, ?_, ?_⟩
  · intro env st tx h0 h1 hok
    have h := hA env st tx hok
    unfold u64ofI64 at h
    omega
  · intro env st tx hne hok
    exact hne (hA env st tx hok)
  · intro env st tx g e herr
    rcases applyTransaction_stage_chain env st tx with ⟨e2, heq, hnever⟩ | heq
    · rw [heq] at herr
      simp at herr
      exact absurd herr (hnever g e)
    · have hstate := accountChecks_invalidNonce_state env st tx g e
        (by rw [← heq]; exact herr)
      refine ⟨by rw [heq]; exact hstate, ?_⟩
      rw [heq, hstate]
      rw [lookupAcct_after]
      rfl
  · intro env st tx hst hgas hpt hne
    have hne2 : ¬ tx.body.nonce =
        (u64ofI64 (accountInfo env st tx.sender).1.nonce + 1) % 2 ^ 64 := by
      simpa [lookupAcct] using hne
    simp [applyTransaction, checkCreateResolution, checkApproveResolution, checkVoteIDs,
      checkVoteBodies, accountChecks, hst, hgas, hpt, hne2, migrationBlockedKindName,
      lookupAcct]
    intro hcontra
    exact absurd hcontra (by simpa using hne2)

/-- Environment of the witness to claim C9. -/
def envC9wit : MempoolEnv :=
  { params := { migrationStatus := .noActiveMigration, disabledGasCosts := true,
                maxVotesPerTx := 100 },
    resolutions := [], authKeyType := fun _ => none,
    validatorPower := fun _ _ => 0,
    getAccount := fun _ => { nonce := 0, balance := 100 },
    nodeAuthType := "ed25519", nodeCompactID := "node0" }

/-- Transaction of the witness to claim C9: a transfer with nonce 5
while the expected next nonce is 1. -/
def txC9wit : Transaction :=
  { body := { payloadType := .transfer, payload := .transfer 1, fee := 0, nonce := 5 },
    sender := "alice", sigType := "ed25519" }

/-- Witness for claim C9 at a concrete input: the wrong-nonce transfer is
rejected with the invalid-nonce error and the tracked account state keeps
the stored nonce and balance. -/
theorem mempool_nonce_admission_witness :
    applyTransaction envC9wit [] txC9wit =
      (Except.error (MempoolError.invalidNonce 5 1),
       [("alice", { nonce := 0, balance := 100 })]) :=
  mempool_nonce_admission.2.2.2.2 envC9wit [] txC9wit rfl rfl rfl (by decide)

/-- Claim C10: a transfer that reaches the mempool balance checks is
rejected with the invalid-amount error when the amount is negative and
with the insufficient-balance error when the amount exceeds the tracked
pending balance; when accepted, the tracked pending balance becomes the
old balance minus fee plus amount, floored at zero. -/
theorem transfer_amount_checks :
    ∀ (env : MempoolEnv) (st : MempoolAccounts) (tx : Transaction) (amt : Int),
      env.params.migrationStatus = MigrationStatus.noActiveMigration →
      env.params.disabledGasCosts = true →
      tx.body.payloadType = PayloadType.transfer →
      tx.body.payload = Payload.transfer amt →
      tx.body.nonce = (u64ofI64 (lookupAcct env st tx.sender).nonce + 1) % 2 ^ 64 →
      ((amt < 0 →
        applyTransaction env st tx =
          (Except.error MempoolError.invalidAmount, (accountInfo env st tx.sender).2)) ∧
       (0 ≤ amt → (lookupAcct env st tx.sender).balance < amt →
        applyTransaction env st tx =
          (Except.error MempoolError.insufficientBalance, (accountInfo env st tx.sender).2)) ∧
       (0 ≤ amt → amt ≤ (lookupAcct env st tx.sender).balance →
        (applyTransaction env st tx).1 = Except.ok () ∧
        (lookupAcct env (applyTransaction env st tx).2 tx.sender).balance =
          max 0 ((lookupAcct env st tx.sender).balance - (tx.body.fee + amt)))) := by
  intro env st tx amt hst hgas hpt hp hnonce
  have hnonce2 : tx.body.nonce =
      (u64ofI64 (accountInfo env st tx.sender).1.nonce + 1) % 2 ^ 64 := by
    simpa [lookupAcct] using hnonce
  refine ⟨?_, ?_, ?_⟩
  · intro ha
    simp [applyTransaction, checkCreateResolution, checkApproveResolution, checkVoteIDs,
      checkVoteBodies, accountChecks, hst, hgas, hpt, hp, hnonce2,
      migrationBlockedKindName, ha]
  · intro h0 hlt
    have ha2 : ¬ amt < 0 := not_lt.mpr h0
    have hbal : (accountInfo env st tx.sender).1.balance < amt := by
      simpa [lookupAcct] using hlt
    simp [applyTransaction, checkCreateResolution, checkApproveResolution, checkVoteIDs,
      checkVoteBodies, accountChecks, hst, hgas, hpt, hp, hnonce2,
      migrationBlockedKindName, ha2, hbal]
  · intro h0 hle
    have ha2 : ¬ amt < 0 := not_lt.mpr h0
    have hbal : ¬ (accountInfo env st tx.sender).1.balance < amt := by
      simpa [lookupAcct] using not_lt.mpr hle
    have hmain : applyTransaction env st tx =
        (Except.ok (), setAccount (accountInfo env st tx.sender).2 tx.sender
          { nonce := i64ofU64 tx.body.nonce,
            balance :=
              if (accountInfo env st tx.sender).1.balance < tx.body.fee + amt then 0
              else (accountInfo env st tx.sender).1.balance - (tx.body.fee + amt) }) := by
      simp [applyTransaction, checkCreateResolution, checkApproveResolution, checkVoteIDs,
        checkVoteBodies, accountChecks, hst, hgas, hpt, hp, hnonce2,
        migrationBlockedKindName, ha2, hbal]
    refine ⟨by rw [hmain], ?_⟩
    rw [hmain]
    rw [lookupAcct_set_of_mem env _ _ _ _ (accountInfo_lookup env st tx.sender)]
    show (if (accountInfo env st tx.sender).1.balance < tx.body.fee + amt then 0
          else (accountInfo env st tx.sender).1.balance - (tx.body.fee + amt)) =
      max 0 ((lookupAcct env st tx.sender).balance - (tx.body.fee + amt))
    unfold lookupAcct
    rcases le_or_lt (tx.body.fee + amt) ((accountInfo env st tx.sender).1.balance) with hc | hc
    · rw [if_neg (not_lt.mpr hc)]
      omega
    · rw [if_pos hc]
      omega

/-- Environment of the witness to claim C10. -/
def envC10wit : MempoolEnv :=
  { params := { migrationStatus := .noActiveMigration, disabledGasCosts := true,
                maxVotesPerTx := 100 },
    resolutions := [], authKeyType := fun _ => none,
    validatorPower := fun _ _ => 0,
    getAccount := fun _ => { nonce := 0, balance := 10 },
    nodeAuthType := "ed25519", nodeCompactID := "node0" }

/-- Transaction of the witness to claim C10: a transfer of 3 with fee 2
from an account with pending balance 10. -/
def txC10wit : Transaction :=
  { body := { payloadType := .transfer, payload := .transfer 3, fee := 2, nonce := 1 },
    sender := "alice", sigType := "ed25519" }

/-- Witness for claim C10 at a concrete input: the funded transfer is
accepted and the tracked pending balance drops from 10 to the floored
10 - (2 + 3). -/
theorem transfer_amount_checks_witness :
    (applyTransaction envC10wit [] txC10wit).1 = Except.ok () ∧
    (lookupAcct envC10wit (applyTransaction envC10wit [] txC10wit).2 txC10wit.sender).balance =
      max 0 ((lookupAcct envC10wit [] txC10wit.sender).balance - (txC10wit.body.fee + 3)) :=
  (transfer_amount_checks envC10wit [] txC10wit 3 rfl rfl rfl rfl (by decide)).2.2
    (by decide) (by decide)

/-- A validator set of four validators with power one each, as in the
four-node integration scenario. -/
def vals4 : List Validator :=
  [{ key := "v0", power := 1 }, { key := "v1", power := 1 },
   { key := "v2", power := 1 }, { key := "v3", power := 1 }]

/-- A pending `StartMigration` resolution with no approvals yet. -/
def migRes0 : PendingResolution :=
  { id := 1, resType := StartMigrationEventType, approvers := [] }

/-- Claim C5: a voted resolution passes only when approvals strictly
exceed two thirds of the total validator power; with four validators the
resolution is still pending after two of four approvals and passes —
takes effect and is removed — on the third. -/
theorem migration_two_thirds_threshold :
    (∀ a t : Int, thresholdMet a t = true ↔ 2 * t < 3 * a) ∧
    totalPower vals4 = 4 ∧
    approveResolutionTx vals4 [migRes0] 1 "v0" =
      (Except.ok (),
       [{ id := 1, resType := StartMigrationEventType, approvers := ["v0"] }]) ∧
    approveResolutionTx vals4
        [{ id := 1, resType := StartMigrationEventType, approvers := ["v0"] }] 1 "v1" =
      (Except.ok (),
       [{ id := 1, resType := StartMigrationEventType, approvers := ["v1", "v0"] }]) ∧
    thresholdMet (approvedPower vals4 ["v1", "v0"]) (totalPower vals4) = false ∧
    approveResolutionTx vals4
        [{ id := 1, resType := StartMigrationEventType, approvers := ["v1", "v0"] }] 1 "v2" =
      (Except.ok (), []) ∧
    thresholdMet (approvedPower vals4 ["v2", "v1", "v0"]) (totalPower vals4) = true := by
  refine ⟨fun a t => by simp [thresholdMet], ?_, ?_, ?_, ?_, ?_, ?_⟩ <;> rfl

/-- Claim C6: an approval submitted by a key that holds no validator
power fails at execution and leaves the pending resolution state — and in
particular its approval count — unchanged. -/
theorem nonvalidator_approval_fails (vals : List Validator)
    (pending : List PendingResolution) (rid : Nat) (voter : String)
    (hnv : powerOf vals voter = 0) :
    (approveResolutionTx vals pending rid voter).1 =
      Except.error "approval from non-validator: transaction failed" ∧
    (approveResolutionTx vals pending rid voter).2 = pending := by
  unfold approveResolutionTx
  simp [hnv]

/-- Witness for claim C6 at a concrete input: a key outside the
four-validator set fails to approve the pending migration resolution and
the resolution is unchanged. -/
theorem nonvalidator_approval_fails_witness :
    (approveResolutionTx vals4 [migRes0] 1 "mallory").1 =
      Except.error "approval from non-validator: transaction failed" ∧
    (approveResolutionTx vals4 [migRes0] 1 "mallory").2 = [migRes0] :=
  nonvalidator_approval_fails vals4 [migRes0] 1 "mallory" (by decide)

/-- Claim C7: querying the join-request status of a key with no pending
join request — in particular after its request expired and was removed —
fails with the no-active-join-request error (whose message begins with
the text given in the spec) and returns no join-status record. -/
theorem join_status_after_expiry_fails (reqs : List JoinRequest) (key : String)
    (now : Int)
    (hexp : ∀ r ∈ reqs, r.candidate = key → r.expiresAt ≤ now) :
    validatorJoinStatus (expireJoinRequests reqs now) key =
      Except.error joinRequestErrMsg ∧
    (∀ r, validatorJoinStatus (expireJoinRequests reqs now) key ≠ Except.ok r) ∧
    joinRequestErrMsg =
      "No active join request for that validator" ++ ". Have they already been approved?" := by
  have hfind : (expireJoinRequests reqs now).find? (fun r => r.candidate == key) = none := by
    apply List.find?_eq_none.mpr
    intro r hr
    simp only [expireJoinRequests, List.mem_filter, decide_eq_true_eq] at hr
    rcases hr with ⟨hmem, hlt⟩
    simp only [beq_iff_eq]
    intro hc
    exact absurd (hexp r hmem hc) (not_le.mpr hlt)
  refine ⟨?_, ?_, rfl⟩
  · unfold validatorJoinStatus
    rw [hfind]
  · intro r
    unfold validatorJoinStatus
    rw [hfind]
    simp

/-- Witness for claim C7 at a concrete input: after the single pending
join request expires at height 5 and the clock is at 10, the status query
fails with the no-active-join-request error. -/
theorem join_status_after_expiry_fails_witness :
    validatorJoinStatus (expireJoinRequests
      [{ candidate := "joiner", expiresAt := 5, board := ["v0"], approved := [false] }] 10)
      "joiner" = Except.error joinRequestErrMsg :=
  (join_status_after_expiry_fails
    [{ candidate := "joiner", expiresAt := 5, board := ["v0"], approved := [false] }]
    "joiner" 10 (by decide)).1

end KwilSpec
